import Mathlib

/-!
Verification of the dublr/dapp client against its specification.

The JavaScript sources under src/src/js (dataflow-nodes.js, wallet.js, onload.js,
orderbook-charting.js) and src/unnamed (idb.js) are shallowly embedded below.

Modelling conventions:
- JS undefined is Option.none; a JS value that may be undefined is an Option.
- ethers BigNumber values are Int; BigNumber.div truncates toward zero, so it is
  embedded as Int.tdiv (truncating division), never the default Int division.
- Plain JS numbers that carry fractional values (USD prices, gas-station fees)
  are embedded as rationals; JS floating point rounding is not modelled, which is
  sound for the claims below since none of them depends on float rounding.
- JS truthiness is modelled per type at each use site: a BigNumber object is
  always truthy (even when it holds zero); a string is truthy iff nonempty;
  undefined is falsy.
- Async functions are embedded as pure functions of their awaited outcomes: each
  awaited external call becomes an explicit argument (an outcome oracle).
-/

namespace DublrDapp

/-- JS truthiness of a possibly-undefined boolean (checkbox values and flags). -/
def truthyOptBool : Option Bool → Bool
  | none => false
  | some b => b

/-- JS truthiness of a possibly-undefined string (wallet addresses, warning text). -/
def truthyOptStr : Option String → Bool
  | none => false
  | some s => s ≠ ""

/-! ## Formatting and utility functions (dataflow-nodes.js) -/

/-- Character class of the address regular expression: [a-zA-Z0-9]. -/
def isAlnumChar (c : Char) : Bool := c.isAlpha || c.isDigit

/-- The match of ADDR_REGEXP = /^(0x[a-zA-Z0-9]{3})[a-zA-Z0-9]+([a-zA-Z0-9]{4})$/ against
a string: group 1 is the first five characters (0x plus three alphanumerics), group 2 the
last four; the whole string must be 0x followed by at least eight alphanumerics. -/
def addrRegexpMatch (a : String) : Option (String × String) :=
  let cs := a.toList
  if 10 ≤ cs.length ∧ cs.take 2 = ['0', 'x'] ∧ (cs.drop 2).all isAlnumChar then
    some (String.mk (cs.take 5), String.mk (cs.drop (cs.length - 4)))
  else none

/-- formatAddress (dataflow-nodes.js line 87): returns an address in the same format as
MetaMask. A falsy address (undefined or the empty string) renders as "(unknown)"; a
non-matching string is returned unchanged; a matching one as group1 ++ "..." ++ group2. -/
def formatAddress (addr : Option String) : String :=
  match addr with
  | none => "(unknown)"
  | some a =>
    if a = "" then "(unknown)"
    else
      match addrRegexpMatch a with
      | none => a
      | some (g1, g2) => g1 ++ "..." ++ g2

/-- Left-pad a decimal string with zeros to the given width. -/
def padZerosTo (s : String) (width : Nat) : String :=
  String.mk (List.replicate (width - s.length) (Char.ofNat 48)) ++ s

/-- Drop trailing zero digits but keep at least one digit. -/
def trimTrailingZerosKeepOne (s : String) : String :=
  match (s.toList.reverse.dropWhile (fun c => c = '0')) with
  | [] => "0"
  | l => String.mk l.reverse

/-- ethers.utils.formatEther: the exact decimal string of amtWEI divided by 10^18,
with sign, integer part, a dot, and the fractional digits with trailing zeros
removed but at least one digit kept. -/
def formatEther (amtWEI : Int) : String :=
  let sign := if amtWEI < 0 then "-" else ""
  let a := amtWEI.natAbs
  let intPart := a / 1000000000000000000
  let fracPart := a % 1000000000000000000
  sign ++ toString intPart ++ "." ++ trimTrailingZerosKeepOne (padZerosTo (toString fracPart) 18)

/-- The character loop of formatSF (dataflow-nodes.js line 158), processing the digit
string with a significant-figure counter, a flag for having passed the decimal point,
and the output accumulator. In the source the digit test is !isNaN(c), which on the
one-character strings produced by formatEther holds exactly for the digits 0-9. -/
def formatSFGo (targetSF : Nat) : List Char → Nat → Bool → String → String
  | [], _, _, out => out
  | c :: rest, numSF, hitDot, out =>
    if c = '.' then
      if targetSF ≤ numSF then out
      else formatSFGo targetSF rest numSF true (out.push c)
    else
      if hitDot ∧ targetSF ≤ numSF then out
      else
        formatSFGo targetSF rest (if c.isDigit then numSF + 1 else numSF) hitDot (out.push c)

/-- formatSF (dataflow-nodes.js line 158): format to 12 significant figures, keeping all
figures before the decimal point and truncating at the last digit; undefined input
renders as "(unknown)". -/
def formatSF (num : Option String) : String :=
  match num with
  | none => "(unknown)"
  | some s => formatSFGo 12 s.toList 0 false ""

/-- toFixed(9) applied to price_x1e9 * 1e-9 (the defined branch of formatPrice).
The source goes through a JS float; this integer rendering agrees with it whenever the
price is exactly representable, and the claims below never depend on this branch. -/
def priceToFixed9 (n : Int) : String :=
  let sign := if n < 0 then "-" else ""
  let a := n.natAbs
  sign ++ toString (a / 1000000000) ++ "." ++ padZerosTo (toString (a % 1000000000)) 9

/-- formatPrice (dataflow-nodes.js line 116): an undefined price (or one that cannot be
converted to a number, which cannot happen for a BigNumber) renders as "(unknown)",
otherwise as the price times 1e-9 with nine decimal places. -/
def formatPrice : Option Int → String
  | none => "(unknown)"
  | some n => priceToFixed9 n

/-- The priceUSDPerCurrency node value: USD prices of ETH, MATIC and DUBLR, each possibly
unavailable. JS numbers are modelled as rationals. -/
structure PriceUSD where
  eth : Option ℚ
  matic : Option ℚ
  dublr : Option ℚ
deriving DecidableEq

/-- formatDollars (dataflow-nodes.js line 141): the match of /[-]?[0-9]*([.][0-9][0-9])?/
at the start of the string (this pattern always matches, possibly the empty string), i.e.
an optional minus sign, leading digits, and a cents part when two digits follow a dot. -/
def formatDollars (amt : String) : Option String :=
  let cs := amt.toList
  let negAndRest : List Char × List Char :=
    match cs with
    | c :: r => if c = '-' then ([c], r) else ([], cs)
    | [] => ([], [])
  let digits := negAndRest.2.takeWhile Char.isDigit
  let rest2 := negAndRest.2.drop digits.length
  let fracPart : List Char :=
    match rest2 with
    | c :: d1 :: d2 :: _ => if c = '.' ∧ d1.isDigit ∧ d2.isDigit then [c, d1, d2] else []
    | _ => []
  some (String.mk (negAndRest.1 ++ digits ++ fracPart))

/-- weiToUSD (dataflow-nodes.js line 188): the wei amount in USD if it can be converted,
otherwise the empty string. The USD price is scaled by 1e6 with Math.floor (JS float
modelled as a rational), multiplied in, and divided back out with BigNumber division. -/
def weiToUSD (amtWEI : Int) (currency : Option String) (priceUSDPerCurrency : Option PriceUSD) :
    String :=
  match priceUSDPerCurrency with
  | none => ""
  | some p =>
    let price : Option ℚ :=
      match currency with
      | none => none
      | some c =>
        if c.endsWith ("ETH") then p.eth
        else if c.endsWith ("MATIC") then p.matic
        else if c = "DUBLR" then p.dublr
        else none
    match price with
    | none => ""
    | some pr =>
      let priceUSDPerCurrency_x1e9 : Int := ⌊pr * 1000000⌋
      let amtUSDWEI := Int.tdiv (amtWEI * priceUSDPerCurrency_x1e9) 1000000
      let amtUSDStr := formatSF (some (formatEther amtUSDWEI))
      match formatDollars amtUSDStr with
      | none => ""
      | some d => " (〜" ++ d ++ " USD)"

/-- weiToDisplay (dataflow-nodes.js line 206): an undefined amount renders as
"(unknown)"; otherwise the formatted ether amount, the currency, and the USD
equivalent when available. -/
def weiToDisplay (amtWEI : Option Int) (currency : String)
    (priceUSDPerCurrency : Option PriceUSD) : String :=
  match amtWEI with
  | none => "(unknown)"
  | some a => formatSF (some (formatEther a)) ++ " " ++ currency
      ++ weiToUSD a (some currency) priceUSDPerCurrency

/-- weiToEthSF (dataflow-nodes.js line 214): an undefined amount renders as
"(unknown)", otherwise the ether amount to 12 significant figures. -/
def weiToEthSF (amtWEI : Option Int) : String :=
  match amtWEI with
  | none => "(unknown)"
  | some a => formatSF (some (formatEther a))

/-! ## Blockchain RPC retry policy (dataflow-nodes.js) -/

/-- The outcome of one invocation of the promiseFn given to rpcCall: the promiseFn may
return undefined instead of a Promise, the awaited Promise may resolve to a value, or it
may reject. A rejection is classified as retryable when its message matches one of the
transient-failure patterns tested at dataflow-nodes.js lines 356-366 (rpc error, header
not found, failed to fetch, missing revert data, retries exhausted, user aborted a
request, Access-Control-Allow-Origin); every other rejection breaks out of the loop. -/
inductive RpcAttempt (α : Type) where
  | noPromise : RpcAttempt α
  | ok (v : α) : RpcAttempt α
  | err (retryable : Bool) : RpcAttempt α
deriving DecidableEq

/-- The observable trace of one rpcCall run: the returned value (none models returning
undefined), the sleeps performed between attempts in milliseconds, and the number of
attempts made. -/
structure RpcTrace (α : Type) where
  result : Option α
  sleeps : List Nat
  attempts : Nat
deriving DecidableEq

/-- The retry loop of rpcCall (dataflow-nodes.js line 328), with numRetries = 5 unrolled
as a remaining-iterations counter: on a retryable error before the last attempt, sleep
for the current delay and double it (expBackoff = 2.0); on the last attempt, on a
non-retryable error (break), or when the promiseFn returns undefined, the call returns
undefined. Sleeps are accumulated in reverse. -/
def rpcCallGo {α : Type} (outcomes : Nat → RpcAttempt α) :
    Nat → Nat → Nat → List Nat → Nat → RpcTrace α
  | 0, _, _, sleepsRev, attempts => ⟨none, sleepsRev.reverse, attempts⟩
  | Nat.succ remaining, i, delay, sleepsRev, attempts =>
    match outcomes i with
    | RpcAttempt.noPromise => ⟨none, sleepsRev.reverse, attempts + 1⟩
    | RpcAttempt.ok v => ⟨some v, sleepsRev.reverse, attempts + 1⟩
    | RpcAttempt.err true =>
      if remaining = 0 then ⟨none, sleepsRev.reverse, attempts + 1⟩
      else rpcCallGo outcomes remaining (i + 1) (delay * 2) (delay :: sleepsRev) (attempts + 1)
    | RpcAttempt.err false => ⟨none, sleepsRev.reverse, attempts + 1⟩

/-- rpcCall (dataflow-nodes.js line 328): at most numRetries = 5 attempts, starting with
a 125 ms delay and exponential backoff factor 2.0, returning undefined on failure. The
i-th attempt outcome is outcomes i. -/
def rpcCall {α : Type} (outcomes : Nat → RpcAttempt α) : RpcTrace α :=
  rpcCallGo outcomes 5 0 125 [] 0

/-- fetchWithTimeout (dataflow-nodes.js line 71): the hard timeout armed on the
AbortController, taken from the options with default 8000 ms. -/
def fetchWithTimeoutMs (timeoutOption : Option Nat) : Nat :=
  timeoutOption.getD 8000

/-- The timeout passed to fetchWithTimeout by the priceUSDPerCurrency node
(dataflow-nodes.js line 686). -/
def priceFetchTimeoutMs : Nat := fetchWithTimeoutMs (some 5000)

/-! ## Persistent preference store (src/unnamed idb.js) -/

/-- idbGet (idb.js line 5): awaits get(key) inside try/catch; when the underlying read
throws, the result degrades to valOnFailure; the function itself never rejects. The
outcome of the IndexedDB read for each key is passed as the oracle argument. -/
def idbGet {α : Type} (readOutcome : String → Except String α) (key : String)
    (valOnFailure : α) : α :=
  match readOutcome key with
  | Except.ok v => v
  | Except.error _ => valOnFailure

/-- idbSet (idb.js line 19): calls set(key, val) with a .catch handler attached that
swallows the storage failure, so the caller always observes a successful resolution
regardless of the outcome of the underlying write. -/
def idbSet {α : Type} (_writeOutcome : Except String Unit) (_key : String) (_val : α) :
    Except String Unit :=
  Except.ok ()

/-! ## Contract state and failure-retaining nodes (dataflow-nodes.js) -/

/-- The fields of the getStaticCallValues result (and of the contractVals node value)
used by the embedded nodes. BigNumbers are Int; the my-sell-order struct is inlined. -/
structure ContractState where
  buyingEnabled : Bool
  mintingEnabled : Bool
  sellingEnabled : Bool
  mintPriceNWCPerDUBLR_x1e9 : Int
  mySellOrderPriceNWCPerDUBLR_x1e9 : Int
  mySellOrderAmountDUBLRWEI : Int
  blockGasLimit : Option Int
deriving DecidableEq

/-- contractVals (dataflow-nodes.js line 650): returns undefined unless both the dublr
contract and the wallet are truthy; otherwise performs the getStaticCallValues RPC via
rpcCall, and when that yields undefined after retries, reuses the last cached node value
(dataflow.value.contractVals, the prev argument) instead. -/
def contractVals {α : Type} (dublr : Bool) (wallet : Option String)
    (rpcOutcomes : Nat → RpcAttempt α) (prev : Option α) : Option α :=
  if !dublr || !(truthyOptStr wallet) then none
  else
    match (rpcCall rpcOutcomes).result with
    | none => prev
    | some v => some v

/-- The parsed CoinGecko response body as consumed by priceUSDPerCurrency: for each
currency, the usd field run through Number.parseFloat, with none for a missing field or
a NaN parse. -/
structure PriceJson where
  ethereumUsd : Option ℚ
  maticNetworkUsd : Option ℚ
  dublrUsd : Option ℚ
deriving DecidableEq

/-- priceUSDPerCurrency (dataflow-nodes.js line 678): starts from a copy of the previous
node value and overwrites the three price fields only when the fetch produced a response;
a failed fetch (rpcCall returning undefined after retries, or an exception caught by the
surrounding try, both modelled as response = none) leaves every field of the copy as it
was, so the previous prices are kept. -/
def priceUSDPerCurrency (prev : PriceUSD) (response : Option PriceJson) : PriceUSD :=
  match response with
  | none => prev
  | some j => { eth := j.ethereumUsd, matic := j.maticNetworkUsd, dublr := j.dublrUsd }

/-! ## Gas price node (dataflow-nodes.js line 762) -/

/-- The fields of the Polygon gas-station response read by gasPriceNWCWEI
(res?.standard?.maxFee and res?.estimatedBaseFee), as rationals; none models a
missing field (whose float arithmetic produces NaN, which is falsy). -/
structure GasStationRes where
  standardMaxFee : Option ℚ
  estimatedBaseFee : Option ℚ
deriving DecidableEq

/-- Math.round: round half toward positive infinity. -/
def jsRound (q : ℚ) : Int := ⌊q + (1 : ℚ) / 2⌋

/-- The gas-station branch of gasPriceNWCWEI: maxFee = Math.round(1.2 * standard.maxFee
* 1e9) is used when truthy (nonzero, non-NaN); then baseFee = Math.round(1.5 *
estimatedBaseFee * 1e9) replaces an unset gasPrice. When gasPrice is already set, the
source evaluates baseFee.gt(maxFee) where baseFee is a plain JS number without a gt
method; the resulting TypeError is swallowed by the surrounding catch, leaving gasPrice
at maxFee. A thrown fetch is likewise swallowed, leaving gasPrice undefined. -/
def gasPriceFromStation (stationOutcome : Except Unit GasStationRes) : Option Int :=
  match stationOutcome with
  | Except.error _ => none
  | Except.ok res =>
    let maxFee : Option Int := res.standardMaxFee.map (fun q => jsRound (12 / 10 * q * 1000000000))
    let gasPrice : Option Int :=
      match maxFee with
      | some m => if m ≠ 0 then some m else none
      | none => none
    let baseFee : Option Int :=
      res.estimatedBaseFee.map (fun q => jsRound (15 / 10 * q * 1000000000))
    match baseFee with
    | some b =>
      if b ≠ 0 then
        match gasPrice with
        | none => some b
        | some m => some m
      else gasPrice
    | none => gasPrice

/-- gasPriceNWCWEI (dataflow-nodes.js line 762) together with the number of times the
gas-station URL is fetched. On Polygon (chainId 137 or 80001) the node performs exactly
one bare fetch of the gas station inside try/catch, with no retry wrapper and no timeout;
if that leaves gasPrice unset and a provider exists, it falls back to
rpcCall(provider.getFeeData()?.maxFeePerGas), doubled on Polygon. -/
def gasPriceNWCWEI (provider : Bool) (chainId : Option Int)
    (stationOutcome : Except Unit GasStationRes)
    (feeDataOutcomes : Nat → RpcAttempt (Option Int)) : Option Int × Nat :=
  let isPolygon : Bool := chainId = some 137 ∨ chainId = some 80001
  let stationFetches : Nat := if isPolygon then 1 else 0
  let gasPrice0 : Option Int := if isPolygon then gasPriceFromStation stationOutcome else none
  let gasPrice1 : Option Int :=
    if gasPrice0 = none ∧ provider then
      match (rpcCall feeDataOutcomes).result with
      | none => none
      | some none => none
      | some (some g) => if isPolygon then some (g * 2) else some g
    else gasPrice0
  (gasPrice1, stationFetches)

/-! ## Wallet provider event handlers (wallet.js) -/

/-- One observable effect of a wallet.js event handler: a dataflow write of the wallet
node, a dataflow write of both chainId and wallet, the three-field undefined write
performed by disconnectFromProvider, a page reload, or an uncaught exception that
aborts the handler. -/
inductive WalletEffect where
  | setWallet (w : Option String) : WalletEffect
  | setChainIdWallet (c : Option Int) (w : Option String) : WalletEffect
  | setProviderChainIdWalletUndefined : WalletEffect
  | reloadPage : WalletEffect
  | throwReferenceError : WalletEffect
deriving DecidableEq

/-- The wallet address extracted from an accounts array (wallet.js line 88):
ac && ac.length > 0 ? ac[0] : undefined. -/
def getWalletAddr (ac : Option (List String)) : Option String :=
  match ac with
  | none => none
  | some l => l.head?

/-- getWallet (wallet.js line 86): resolves the accounts (the given ones, or the
eth_accounts request outcome when called without arguments), writes the wallet node, and
returns the address. The effect list is the sequence of dataflow writes it performs. -/
def getWalletEffects (ac : Option (List String)) : List WalletEffect :=
  [WalletEffect.setWallet (getWalletAddr ac)]

/-- The dataflow writes of onDisconnectClick (wallet.js line 314): it calls
disconnectFromProvider, whose single batched write sets web3ModalProvider, chainId and
wallet to undefined (line 147); clearing the cached provider and the preference write
are not dataflow writes. -/
def onDisconnectClickEffects : List WalletEffect :=
  [WalletEffect.setProviderChainIdWalletUndefined]

/-- onAccountsChanged (wallet.js line 93): when the event carries undefined, walletAddr
becomes undefined without calling getWallet; otherwise getWallet(accounts) writes the
wallet node and returns the address. In both cases the handler then writes the wallet
node again, and when the address is undefined it disconnects from the provider. -/
def onAccountsChanged (accounts : Option (List String)) : List WalletEffect :=
  match accounts with
  | none => [WalletEffect.setWallet none] ++ onDisconnectClickEffects
  | some l =>
    let w := getWalletAddr (some l)
    getWalletEffects (some l) ++ [WalletEffect.setWallet w]
      ++ (if w = none then onDisconnectClickEffects else [])

/-- onChainChanged (wallet.js line 103): reloads the page. The dataflow write of chainId
that would respond to the change is commented out in the source, which documents that
MetaMask-over-WalletConnect caches values regardless of chainId changes, forcing a
reload instead. -/
def onChainChanged (_chainId : Int) : List WalletEffect :=
  [WalletEffect.reloadPage]

/-- onConnect (wallet.js line 114): first awaits getWallet(), which writes the wallet
node; then the assignment to chainIdInt on line 117 references the const chainIdInt
declared on line 118 inside its temporal dead zone, so the handler throws a
ReferenceError and aborts before reaching its dataflow.set of chainId and wallet. -/
def onConnect (providerAccounts : Option (List String)) (_infoChainId : Option Int) :
    List WalletEffect :=
  getWalletEffects providerAccounts ++ [WalletEffect.throwReferenceError]

/-- onDisconnect (wallet.js line 122): writes chainId and wallet to undefined, then
disconnects from the provider (writing all three nodes to undefined). -/
def onDisconnect : List WalletEffect :=
  [WalletEffect.setChainIdWallet none none] ++ onDisconnectClickEffects

/-- Whether an effect writes the chainId node. -/
def writesChainId : WalletEffect → Bool
  | WalletEffect.setChainIdWallet _ _ => true
  | WalletEffect.setProviderChainIdWalletUndefined => true
  | _ => false

/-- Whether an effect writes the wallet node. -/
def writesWallet : WalletEffect → Bool
  | WalletEffect.setWallet _ => true
  | WalletEffect.setChainIdWallet _ _ => true
  | WalletEffect.setProviderChainIdWalletUndefined => true
  | _ => false

/-! ## Checkbox constraint (dataflow-nodes.js line 797) -/

/-- constrainBuyMintCheckboxes: undefined checkbox inputs default to true; when both are
false, both are replaced by the negation of the module-level currAllowBuying and
currAllowMinting flags. The returned pair is both the pair of values written back to the
allowBuying and allowMinting nodes and the new value of the module flags. -/
def constrainBuyMintCheckboxes (allowBuying allowMinting : Option Bool)
    (currAllowBuying currAllowMinting : Bool) : Bool × Bool :=
  let ab := allowBuying.getD true
  let am := allowMinting.getD true
  if ab = false ∧ am = false then (!currAllowBuying, !currAllowMinting)
  else (ab, am)

/-! ## Buy button enablement (dataflow-nodes.js lines 1416-1452) -/

/-- The result of estimateGas as consumed by the button nodes: the raw gas estimate (a
BigNumber or undefined), the gas cost, and the warning text. -/
structure GasEstResult where
  gasEstRaw : Option Int
  gasEstNWCWEI : Option Int
  warningText : String
deriving DecidableEq

/-- JS truthiness of the gasLimit local of the button-params nodes: it is either a
BigNumber object (always truthy, even when it holds zero) or the numeric literal 2e7,
so it is always truthy. -/
def gasLimitTruthy (_gasLimit : Int) : Bool := true

/-- buyButtonParams (dataflow-nodes.js line 1416): the disabled condition. Each disjunct
mirrors one || clause of the source; !x on a possibly-undefined BigNumber is isNone
(a BigNumber object is truthy even when zero), and the comparison methods run only when
the value is defined, by JS short-circuit. -/
def buyButtonParamsDisabled (dublr : Bool) (cv : Option ContractState)
    (buyAmountNWCWEI minimumTokensToBuyOrMintDUBLRWEI amountBoughtEstDUBLRWEI : Option Int)
    (allowBuying allowMinting : Option Bool) (buyGasEst : Option GasEstResult)
    (termsBuy_in : Option Bool) : Bool :=
  let gasLimit : Int :=
    (((buyGasEst.bind GasEstResult.gasEstRaw).orElse
      (fun _ => cv.bind ContractState.blockGasLimit)).getD 20000000)
  !dublr
  || cv.isNone
  || cv.elim false (fun c => !c.buyingEnabled && !c.mintingEnabled)
  || allowBuying.isNone || allowMinting.isNone
  || (!(truthyOptBool allowBuying) && !(truthyOptBool allowMinting))
  || buyAmountNWCWEI.isNone
  || buyAmountNWCWEI.elim false (fun a => decide (a ≤ 0))
  || amountBoughtEstDUBLRWEI.isNone
  || amountBoughtEstDUBLRWEI.elim false (fun a => decide (a ≤ 0))
  || minimumTokensToBuyOrMintDUBLRWEI.isNone
  || minimumTokensToBuyOrMintDUBLRWEI.elim false (fun m => decide (m < 0))
  || buyGasEst.elim false (fun g => g.warningText ≠ "")
  || !(gasLimitTruthy gasLimit)
  || !(truthyOptBool termsBuy_in)

/-- buyButtonParams returns undefined when disabled, otherwise the parameter group
(whose payload is irrelevant to enablement and is modelled as Unit). -/
def buyButtonParamsResult (dublr : Bool) (cv : Option ContractState)
    (buyAmountNWCWEI minimumTokensToBuyOrMintDUBLRWEI amountBoughtEstDUBLRWEI : Option Int)
    (allowBuying allowMinting : Option Bool) (buyGasEst : Option GasEstResult)
    (termsBuy_in : Option Bool) : Option Unit :=
  if buyButtonParamsDisabled dublr cv buyAmountNWCWEI minimumTokensToBuyOrMintDUBLRWEI
      amountBoughtEstDUBLRWEI allowBuying allowMinting buyGasEst termsBuy_in
  then none else some ()

/-- buyButtonEnablement (dataflow-nodes.js line 1448): the value written to
buyButtonDisabled_out is !buyButtonParams || !!buyTransactionPending. -/
def buyButtonDisabledOut (buyButtonParamsVal : Option Unit)
    (buyTransactionPending : Option Bool) : Bool :=
  buyButtonParamsVal.isNone || truthyOptBool buyTransactionPending

/-- The composition of buyButtonParams and buyButtonEnablement: the value written to
buyButtonDisabled_out as a function of the underlying node values. -/
def buyButtonDisabledFull (dublr : Bool) (cv : Option ContractState)
    (buyAmountNWCWEI minimumTokensToBuyOrMintDUBLRWEI amountBoughtEstDUBLRWEI : Option Int)
    (allowBuying allowMinting : Option Bool) (buyGasEst : Option GasEstResult)
    (termsBuy_in buyTransactionPending : Option Bool) : Bool :=
  buyButtonDisabledOut
    (buyButtonParamsResult dublr cv buyAmountNWCWEI minimumTokensToBuyOrMintDUBLRWEI
      amountBoughtEstDUBLRWEI allowBuying allowMinting buyGasEst termsBuy_in)
    buyTransactionPending

/-! ## Buy simulation (dataflow-nodes.js line 1032, amountBoughtEstDUBLRWEI)

The node ports the _buy_stateUpdater method of Dublr.sol to JS; below the numeric state
of that port is embedded. The HTML strings accumulated alongside (result, tableRows) and
the numBought counter feed only the rendered execution plan and never the numeric state,
so they are omitted. -/

/-- One orderbook entry as consumed by the simulation: price, amount, and whether the
entry is the synthetic mint-price row inserted by the orderbook node. -/
structure SellOrderEntry where
  priceNWCPerDUBLR_x1e9 : Int
  amountDUBLRWEI : Int
  isMintPriceEntry : Bool
deriving DecidableEq

/-- dublrToEthRoundUpClamped (dataflow-nodes.js line 126): the NWC cost of the DUBLR
amount at the given price, rounded up to the next wei, and clamped to maxAmtETH. -/
def dublrToEthRoundUpClamped (price_x1e9 amountDUBLRWEI maxAmtETH : Int) : Int :=
  let amtETH := Int.tdiv (amountDUBLRWEI * price_x1e9 + (1000000000 - 1)) 1000000000
  if amtETH < maxAmtETH then amtETH else maxAmtETH

/-- dublrToEth (dataflow-nodes.js line 131): the NWC value of the DUBLR amount at the
given price, rounded down. -/
def dublrToEth (price_x1e9 amountDUBLRWEI : Int) : Int :=
  Int.tdiv (amountDUBLRWEI * price_x1e9) 1000000000

/-- ethToDublr (dataflow-nodes.js line 135): the DUBLR amount purchasable for the NWC
amount at the given price, rounded down. -/
def ethToDublr (price_x1e9 amtETH : Int) : Int :=
  Int.tdiv (amtETH * 1000000000) price_x1e9

/-- The mutable numeric locals of the buy/mint simulation. -/
structure BuySimState where
  buyOrderRemainingNWCWEI : Int
  totBoughtOrMintedDUBLRWEI : Int
  totSpentNWCWEI : Int
  orderbookCopy : List SellOrderEntry
  ownSellOrderFound : Bool
  skipMinting : Bool
  skippedBuying : Bool
deriving DecidableEq

/-- The initial simulation state (dataflow-nodes.js lines 1072-1080). -/
def initBuySimState (buyAmountNWCWEI : Int) (orderbook : List SellOrderEntry) : BuySimState :=
  { buyOrderRemainingNWCWEI := buyAmountNWCWEI
    totBoughtOrMintedDUBLRWEI := 0
    totSpentNWCWEI := 0
    orderbookCopy := orderbook
    ownSellOrderFound := false
    skipMinting := false
    skippedBuying := true }

/-- The while loop of the buy simulation (dataflow-nodes.js lines 1082-1131), with the
number of remaining iterations as fuel (the state after n loop iterations is obtained
with fuel n, so quantifying over the fuel covers every intermediate state). Each
iteration: skip the synthetic mint-price entry; skip the buyer's own active sell order
once; stop at entries priced above a nonzero mint price; stop (skipping minting) when
nothing is affordable at the entry price; otherwise buy the affordable part of the head
entry, charging the rounded-up clamped cost. -/
def buyLoopGo (cv : ContractState) (allowBuying : Bool) :
    Nat → BuySimState → BuySimState
  | 0, st => st
  | Nat.succ fuel, st =>
    if cv.buyingEnabled && allowBuying && decide (0 < st.buyOrderRemainingNWCWEI)
        && !st.orderbookCopy.isEmpty then
      match st.orderbookCopy with
      | [] => st
      | sellOrder :: rest =>
        let st1 := { st with skippedBuying := false }
        if sellOrder.isMintPriceEntry then
          buyLoopGo cv allowBuying fuel { st1 with orderbookCopy := rest }
        else if !st1.ownSellOrderFound
            && !(cv.mySellOrderAmountDUBLRWEI == 0)
            && (cv.mySellOrderPriceNWCPerDUBLR_x1e9 == sellOrder.priceNWCPerDUBLR_x1e9)
            && (cv.mySellOrderAmountDUBLRWEI == sellOrder.amountDUBLRWEI) then
          buyLoopGo cv allowBuying fuel
            { st1 with orderbookCopy := rest, ownSellOrderFound := true }
        else if decide (0 < cv.mintPriceNWCPerDUBLR_x1e9)
            && decide (cv.mintPriceNWCPerDUBLR_x1e9 < sellOrder.priceNWCPerDUBLR_x1e9) then
          st1
        else
          let afford := ethToDublr sellOrder.priceNWCPerDUBLR_x1e9 st1.buyOrderRemainingNWCWEI
          if afford = 0 then { st1 with skipMinting := true }
          else
            let amountToBuyDUBLRWEI :=
              if sellOrder.amountDUBLRWEI < afford then sellOrder.amountDUBLRWEI else afford
            let amountToChargeBuyerNWCWEI := dublrToEthRoundUpClamped
              sellOrder.priceNWCPerDUBLR_x1e9 amountToBuyDUBLRWEI st1.buyOrderRemainingNWCWEI
            let sellOrderRemainingDUBLRWEI := sellOrder.amountDUBLRWEI - amountToBuyDUBLRWEI
            let newOrderbook :=
              if sellOrderRemainingDUBLRWEI = 0 then rest
              else { sellOrder with amountDUBLRWEI := sellOrderRemainingDUBLRWEI } :: rest
            buyLoopGo cv allowBuying fuel
              { st1 with
                orderbookCopy := newOrderbook
                totBoughtOrMintedDUBLRWEI :=
                  st1.totBoughtOrMintedDUBLRWEI + amountToBuyDUBLRWEI
                buyOrderRemainingNWCWEI :=
                  st1.buyOrderRemainingNWCWEI - amountToChargeBuyerNWCWEI
                totSpentNWCWEI := st1.totSpentNWCWEI + amountToChargeBuyerNWCWEI }
    else st

/-- The minting step after the loop (dataflow-nodes.js lines 1132-1153): when minting is
enabled and allowed, not skipped, the mint price is nonzero and funds remain, mint the
affordable amount at the mint price, charging the rounded-up clamped cost. -/
def buyMintStep (cv : ContractState) (allowMinting : Bool) (st : BuySimState) : BuySimState :=
  if cv.mintingEnabled && allowMinting && !st.skipMinting
      && decide (0 < cv.mintPriceNWCPerDUBLR_x1e9)
      && decide (0 < st.buyOrderRemainingNWCWEI) then
    let amountToMintDUBLRWEI := ethToDublr cv.mintPriceNWCPerDUBLR_x1e9 st.buyOrderRemainingNWCWEI
    let amountToMintNWCWEI := dublrToEthRoundUpClamped cv.mintPriceNWCPerDUBLR_x1e9
      amountToMintDUBLRWEI st.buyOrderRemainingNWCWEI
    if 0 < amountToMintDUBLRWEI then
      { st with
        totBoughtOrMintedDUBLRWEI := st.totBoughtOrMintedDUBLRWEI + amountToMintDUBLRWEI
        buyOrderRemainingNWCWEI := st.buyOrderRemainingNWCWEI - amountToMintNWCWEI
        totSpentNWCWEI := st.totSpentNWCWEI + amountToMintNWCWEI }
    else st
  else st

/-- A fuel bound sufficient for the loop to run to its JS termination point (each
iteration either removes an orderbook entry or strictly decreases the remaining funds). -/
def buySimFuel (buyAmountNWCWEI : Int) (orderbook : List SellOrderEntry) : Nat :=
  orderbook.length + buyAmountNWCWEI.toNat + 1

/-- The full simulation state after the loop and the minting step. -/
def buySimFinal (cv : ContractState) (allowBuying allowMinting : Bool)
    (buyAmountNWCWEI : Int) (orderbook : List SellOrderEntry) : BuySimState :=
  buyMintStep cv allowMinting
    (buyLoopGo cv allowBuying (buySimFuel buyAmountNWCWEI orderbook)
      (initBuySimState buyAmountNWCWEI orderbook))

/-- The summary line of the execution plan (dataflow-nodes.js line 1169):
totalToSpendNWCWEI = buyAmountNWCWEI.sub(buyOrderRemainingNWCWEI), the displayed
"Total to spend". -/
def totalToSpendNWCWEI (buyAmountNWCWEI : Int) (st : BuySimState) : Int :=
  buyAmountNWCWEI - st.buyOrderRemainingNWCWEI

/-- amountBoughtEstDUBLRWEI (dataflow-nodes.js line 1032), the node around the
simulation: when any input is undefined, or both allow flags are false, the node pushes
empty outputs and returns undefined; otherwise it runs the loop and the minting step and
returns the total amount bought or minted. The slippage input only feeds the side write
of minimumTokensToBuyOrMintDUBLRWEI (totBought times the floored slippage fraction over
1e9), which together with the HTML execution plan is outside the embedded numeric
state. -/
def amountBoughtEstDUBLRWEI (contractVals : Option ContractState)
    (buyAmountNWCWEI : Option Int) (allowBuying allowMinting : Option Bool)
    (orderbook : Option (List SellOrderEntry)) (maxSlippageFrac_x1e9 : Option Int) :
    Option Int :=
  match contractVals, buyAmountNWCWEI, allowBuying, allowMinting, orderbook,
      maxSlippageFrac_x1e9 with
  | some cv, some amt, some ab, some am, some ob, some _ =>
    if !ab && !am then none
    else some (buySimFinal cv ab am amt ob).totBoughtOrMintedDUBLRWEI
  | _, _, _, _, _, _ => none

/-! ## updateListPriceUI (dataflow-nodes.js line 1329) -/

/-- JS String.prototype.trim: strip leading and trailing whitespace (structural
definition, equivalent to String.trim). -/
def jsTrim (s : String) : String :=
  String.mk (((s.toList.dropWhile Char.isWhitespace).reverse.dropWhile
    Char.isWhitespace).reverse)

/-- updateListPriceUI: when the list price input field is blank (after trim) and the
mint price is known, the node pushes the formatted mint price into listPrice_in and
listPrice_out with an explicit two-step clear-then-set sequence: first a write of
undefined, then a write of the value, so that re-setting an identical value is not
swallowed by the equal-value suppression. The returned list is the sequence of values
written to each of the two nodes (none models the clearing write of undefined). -/
def updateListPriceUI (listPrice_in : Option String) (cv : Option Int) :
    List (Option String) :=
  match listPrice_in, cv with
  | some s, some mintPrice =>
    if jsTrim s = "" then [none, some (formatPrice (some mintPrice))]
    else []
  | _, _ => []

/-! ## The dataflow core (Value Store, Scheduler, Re-entrancy Guard)

The dataflow core lives in dataflow-lib.js, which is not among the provided sources;
only its callers (dataflow.register, dataflow.set, dataflow.get, dataflow.value) appear
in dataflow-nodes.js and wallet.js. The definitions in this section are therefore
modelled from the spec (sections 3, 4.2-4.4 and 8 of spec.md), as marked on each. -/

/-- Modelled from the spec: a Value Store entry is a (value, generation) pair per node
(spec section 3); the value may be undefined, which is itself a valid committed value. -/
structure NodeEntry (V : Type) where
  value : Option V
  generation : Nat
deriving DecidableEq

/-- Modelled from the spec: the shared state of the core, the Value Store plus the
monotonically increasing pass-generation counter of the Re-entrancy Guard
(spec section 4.4). -/
structure DataflowCore (V : Type) where
  store : String → NodeEntry V
  currentPassGen : Nat

/-- Modelled from the spec: a single-field write into the Value Store (spec sections 3
and 4.2). An equal-valued write is a no-op; otherwise the value is replaced and the
generation of the node increments. The boolean reports whether the node actually
changed (and hence seeds the propagation closure). -/
def writeFieldValue {V : Type} [DecidableEq V] (store : String → NodeEntry V)
    (name : String) (v : Option V) : (String → NodeEntry V) × Bool :=
  let e := store name
  if v = e.value then (store, false)
  else ((fun n => if n = name then ⟨v, e.generation + 1⟩ else store n), true)

/-- Modelled from the spec: write(partialMapping) stages a batch of assignments with the
equal-value short-circuit applied independently per name (spec section 4.2); the
returned list is the set of directly changed node names that seeds the propagation pass
(spec section 4.3 step 1). -/
def writeBatch {V : Type} [DecidableEq V] (store : String → NodeEntry V) :
    List (String × Option V) → (String → NodeEntry V) × List String
  | [] => (store, [])
  | (n, v) :: rest =>
    let r1 := writeFieldValue store n v
    let r2 := writeBatch r1.1 rest
    (r2.1, (if r1.2 then [n] else []) ++ r2.2)

/-- Modelled from the spec: the nodes recomputed by a pass are those reachable from the
changed set along dependency edges (spec section 4.3 step 2), here with a fuel bound on
the path length; an empty change-set reaches no node, so no compute function runs. -/
def dependentClosure (deps : String → List String) : Nat → List String → List String
  | 0, _ => []
  | Nat.succ fuel, dirty =>
    dirty.flatMap (fun n => deps n ++ dependentClosure deps fuel (deps n))

/-- Modelled from the spec: an external write arriving while a pass is in flight starts
a brand-new pass and increments the pass-generation counter, superseding every earlier
pass (spec sections 4.3 re-entrancy rule and 4.4). -/
def externalWrite {V : Type} [DecidableEq V] (s : DataflowCore V)
    (batch : List (String × Option V)) : DataflowCore V :=
  { store := (writeBatch s.store batch).1, currentPassGen := s.currentPassGen + 1 }

/-- Modelled from the spec: when a node computation belonging to pass passGen resolves,
the commit step checks that passGen is still the current pass generation before writing
to the Value Store; stale generations are silently dropped (spec section 4.4). -/
def commitNodeResult {V : Type} [DecidableEq V] (s : DataflowCore V) (passGen : Nat)
    (name : String) (v : Option V) : DataflowCore V :=
  if passGen = s.currentPassGen then
    { s with store := (writeFieldValue s.store name v).1 }
  else s

/-- Whether an rpcCall attempt outcome is a successful resolution. -/
def rpcAttemptIsOk {α : Type} : RpcAttempt α → Bool
  | RpcAttempt.ok _ => true
  | _ => false

/-- Well-formedness of the orderbook entries reaching the buy simulation: positive
prices (the contract rejects zero-price sell orders, and the synthetic mint-price row
is only inserted for a nonzero mint price) and nonnegative amounts. -/
def ObEntriesOK (l : List SellOrderEntry) : Prop :=
  ∀ e ∈ l, 0 < e.priceNWCPerDUBLR_x1e9 ∧ 0 ≤ e.amountDUBLRWEI

/-- The conservation invariant of the buy simulation: the remaining funds are
nonnegative, spent plus remaining funds equal the original buy amount, and the
orderbook stays well formed. -/
def BuySimInv (buyAmountNWCWEI : Int) (st : BuySimState) : Prop :=
  0 ≤ st.buyOrderRemainingNWCWEI ∧
  st.totSpentNWCWEI + st.buyOrderRemainingNWCWEI = buyAmountNWCWEI ∧
  ObEntriesOK st.orderbookCopy

/-! # Theorems -/

/-- Helper: ethToDublr of nonnegative funds at a positive price is nonnegative. -/
theorem ethToDublr_nonneg {p a : Int} (hp : 0 < p) (ha : 0 ≤ a) : 0 ≤ ethToDublr p a :=
  Int.tdiv_nonneg (by positivity) hp.le

/-- Helper: the rounded-up clamped charge is nonnegative and never exceeds the clamp. -/
theorem dublrToEthRoundUpClamped_bounds {p a r : Int} (hp : 0 ≤ p) (ha : 0 ≤ a)
    (hr : 0 ≤ r) :
    0 ≤ dublrToEthRoundUpClamped p a r ∧ dublrToEthRoundUpClamped p a r ≤ r := by
  unfold dublrToEthRoundUpClamped
  have hq : 0 ≤ Int.tdiv (a * p + (1000000000 - 1)) 1000000000 :=
    Int.tdiv_nonneg (by positivity) (by norm_num)
  dsimp only
  split <;> omega

/-- Claim C7: for every undefined (unavailable) input, the display-formatting functions
return the explicit placeholder string "(unknown)" rather than an empty string or
throwing: formatPrice, weiToDisplay, formatSF and weiToEthSF on an undefined value, and
formatAddress on a falsy (undefined or empty) address, all yield "(unknown)". -/
theorem unavailableValuesRenderAsUnknown :
    formatPrice none = "(unknown)" ∧
    (∀ (currency : String) (price : Option PriceUSD),
      weiToDisplay none currency price = "(unknown)") ∧
    formatSF none = "(unknown)" ∧
    weiToEthSF none = "(unknown)" ∧
    formatAddress none = "(unknown)" ∧
    formatAddress (some "") = "(unknown)" :=
  ⟨rfl, fun _ _ => rfl, rfl, rfl, rfl, by simp [formatAddress]⟩

/-- Claim C8: the persistent preference store is best-effort: idbGet returns the stored
value when the underlying IndexedDB read succeeds and the fallback value when it fails,
itself never rejecting; and idbSet always resolves successfully regardless of the
outcome of the underlying write, so a storage failure never propagates to its caller. -/
theorem idbBestEffort {α : Type} (key : String) (valOnFailure stored : α) (e : String)
    (writeOutcome : Except String Unit) (val : α) :
    idbGet (fun _ => Except.ok stored) key valOnFailure = stored ∧
    idbGet (fun _ => Except.error e) key valOnFailure = valOnFailure ∧
    idbSet writeOutcome key val = Except.ok () :=
  ⟨rfl, rfl, rfl⟩

/-- Claim C3, counterexample: the Polygon gas-station fetch performed by the
gasPriceNWCWEI node is an external call of the node layer that is not wrapped in the
bounded retry policy: on chainId 137 with a connected provider, a transient failure of
the gas-station request is attempted exactly once (no retry, no backoff), the node
falling through to the provider fee-data path instead; so not every external call made
by the node layer is wrapped in retry-with-backoff. -/
theorem gasStationFetchNotRetried :
    (gasPriceNWCWEI true (some 137) (Except.error ())
      (fun _ => RpcAttempt.err true)).2 = 1 := by decide

/-- Claim C3, amended: the bounded retry wrapper of the node layer, rpcCall, performs
at most 5 attempts starting at a 125 ms delay with exponential backoff factor 2.0
(sleeping 125, 250, 500, 1000 ms between successive attempts) and returns undefined on
exhaustion or on a non-retryable error instead of throwing, and the CoinGecko price
fetch made through it carries a hard timeout (fetchWithTimeout, default 8000 ms, 5000
ms at its call site); but not every external call made by the node layer is wrapped in
this policy: the counterexample shows the Polygon gas-station fetch issued as a single
bare attempt. (The universal claim fails for further calls as well, without any claim
of an exhaustive inventory here: the gas-estimation calls of buyGasEst, sellGasEst and
cancelGasEst are awaited bare inside runTransaction, dataflow-nodes.js lines 983, 1003
and 1021 via line 395, and onDublrEvent awaits a bare evm_mine send at line 42.) -/
theorem rpcRetryPolicy {α : Type} (outcomes : Nat → RpcAttempt α) :
    (rpcCall outcomes).attempts ≤ 5 ∧
    (rpcCall outcomes).sleeps =
      List.take ((rpcCall outcomes).sleeps.length) [125, 250, 500, 1000] ∧
    ((outcomes 0 = RpcAttempt.err true ∧ outcomes 1 = RpcAttempt.err true ∧
      outcomes 2 = RpcAttempt.err true ∧ outcomes 3 = RpcAttempt.err true ∧
      outcomes 4 = RpcAttempt.err true) →
      rpcCall outcomes = ⟨none, [125, 250, 500, 1000], 5⟩) ∧
    ((rpcAttemptIsOk (outcomes 0) = false ∧ rpcAttemptIsOk (outcomes 1) = false ∧
      rpcAttemptIsOk (outcomes 2) = false ∧ rpcAttemptIsOk (outcomes 3) = false ∧
      rpcAttemptIsOk (outcomes 4) = false) →
      (rpcCall outcomes).result = none) ∧
    fetchWithTimeoutMs none = 8000 ∧ priceFetchTimeoutMs = 5000 := by
  rcases h0 : outcomes 0 with _ | v0 | b0
  · refine ⟨?_, ?_, ?_, ?_, rfl, rfl⟩
    · simp [rpcCall, rpcCallGo, h0]
    · simp [rpcCall, rpcCallGo, h0]
    · rintro ⟨c0, -⟩; simp at c0
    · intro _; simp [rpcCall, rpcCallGo, h0]
  · refine ⟨?_, ?_, ?_, ?_, rfl, rfl⟩
    · simp [rpcCall, rpcCallGo, h0]
    · simp [rpcCall, rpcCallGo, h0]
    · rintro ⟨c0, -⟩; simp at c0
    · rintro ⟨c0, -⟩; simp [rpcAttemptIsOk] at c0
  cases b0
  · refine ⟨?_, ?_, ?_, ?_, rfl, rfl⟩
    · simp [rpcCall, rpcCallGo, h0]
    · simp [rpcCall, rpcCallGo, h0]
    · rintro ⟨c0, -⟩; simp at c0
    · intro _; simp [rpcCall, rpcCallGo, h0]
  rcases h1 : outcomes 1 with _ | v1 | b1
  · refine ⟨?_, ?_, ?_, ?_, rfl, rfl⟩
    · simp [rpcCall, rpcCallGo, h0, h1]
    · simp [rpcCall, rpcCallGo, h0, h1]
    · rintro ⟨-, c1, -⟩; simp at c1
    · intro _; simp [rpcCall, rpcCallGo, h0, h1]
  · refine ⟨?_, ?_, ?_, ?_, rfl, rfl⟩
    · simp [rpcCall, rpcCallGo, h0, h1]
    · simp [rpcCall, rpcCallGo, h0, h1]
    · rintro ⟨-, c1, -⟩; simp at c1
    · rintro ⟨-, c1, -⟩; simp [rpcAttemptIsOk] at c1
  cases b1
  · refine ⟨?_, ?_, ?_, ?_, rfl, rfl⟩
    · simp [rpcCall, rpcCallGo, h0, h1]
    · simp [rpcCall, rpcCallGo, h0, h1]
    · rintro ⟨-, c1, -⟩; simp at c1
    · intro _; simp [rpcCall, rpcCallGo, h0, h1]
  rcases h2 : outcomes 2 with _ | v2 | b2
  · refine ⟨?_, ?_, ?_, ?_, rfl, rfl⟩
    · simp [rpcCall, rpcCallGo, h0, h1, h2]
    · simp [rpcCall, rpcCallGo, h0, h1, h2]
    · rintro ⟨-, -, c2, -⟩; simp at c2
    · intro _; simp [rpcCall, rpcCallGo, h0, h1, h2]
  · refine ⟨?_, ?_, ?_, ?_, rfl, rfl⟩
    · simp [rpcCall, rpcCallGo, h0, h1, h2]
    · simp [rpcCall, rpcCallGo, h0, h1, h2]
    · rintro ⟨-, -, c2, -⟩; simp at c2
    · rintro ⟨-, -, c2, -⟩; simp [rpcAttemptIsOk] at c2
  cases b2
  · refine ⟨?_, ?_, ?_, ?_, rfl, rfl⟩
    · simp [rpcCall, rpcCallGo, h0, h1, h2]
    · simp [rpcCall, rpcCallGo, h0, h1, h2]
    · rintro ⟨-, -, c2, -⟩; simp at c2
    · intro _; simp [rpcCall, rpcCallGo, h0, h1, h2]
  rcases h3 : outcomes 3 with _ | v3 | b3
  · refine ⟨?_, ?_, ?_, ?_, rfl, rfl⟩
    · simp [rpcCall, rpcCallGo, h0, h1, h2, h3]
    · simp [rpcCall, rpcCallGo, h0, h1, h2, h3]
    · rintro ⟨-, -, -, c3, -⟩; simp at c3
    · intro _; simp [rpcCall, rpcCallGo, h0, h1, h2, h3]
  · refine ⟨?_, ?_, ?_, ?_, rfl, rfl⟩
    · simp [rpcCall, rpcCallGo, h0, h1, h2, h3]
    · simp [rpcCall, rpcCallGo, h0, h1, h2, h3]
    · rintro ⟨-, -, -, c3, -⟩; simp at c3
    · rintro ⟨-, -, -, c3, -⟩; simp [rpcAttemptIsOk] at c3
  cases b3
  · refine ⟨?_, ?_, ?_, ?_, rfl, rfl⟩
    · simp [rpcCall, rpcCallGo, h0, h1, h2, h3]
    · simp [rpcCall, rpcCallGo, h0, h1, h2, h3]
    · rintro ⟨-, -, -, c3, -⟩; simp at c3
    · intro _; simp [rpcCall, rpcCallGo, h0, h1, h2, h3]
  rcases h4 : outcomes 4 with _ | v4 | b4
  · refine ⟨?_, ?_, ?_, ?_, rfl, rfl⟩
    · simp [rpcCall, rpcCallGo, h0, h1, h2, h3, h4]
    · simp [rpcCall, rpcCallGo, h0, h1, h2, h3, h4]
    · rintro ⟨-, -, -, -, c4⟩; simp at c4
    · intro _; simp [rpcCall, rpcCallGo, h0, h1, h2, h3, h4]
  · refine ⟨?_, ?_, ?_, ?_, rfl, rfl⟩
    · simp [rpcCall, rpcCallGo, h0, h1, h2, h3, h4]
    · simp [rpcCall, rpcCallGo, h0, h1, h2, h3, h4]
    · rintro ⟨-, -, -, -, c4⟩; simp at c4
    · rintro ⟨-, -, -, -, c4⟩; simp [rpcAttemptIsOk] at c4
  cases b4
  · refine ⟨?_, ?_, ?_, ?_, rfl, rfl⟩
    · simp [rpcCall, rpcCallGo, h0, h1, h2, h3, h4]
    · simp [rpcCall, rpcCallGo, h0, h1, h2, h3, h4]
    · rintro ⟨-, -, -, -, c4⟩; simp at c4
    · intro _; simp [rpcCall, rpcCallGo, h0, h1, h2, h3, h4]
  · refine ⟨?_, ?_, ?_, ?_, rfl, rfl⟩
    · simp [rpcCall, rpcCallGo, h0, h1, h2, h3, h4]
    · simp [rpcCall, rpcCallGo, h0, h1, h2, h3, h4]
    · intro _; simp [rpcCall, rpcCallGo, h0, h1, h2, h3, h4]
    · intro _; simp [rpcCall, rpcCallGo, h0, h1, h2, h3, h4]

/-- Claim C3, witness for the amended theorem at a concrete all-transient-failure run:
five attempts are made with the backoff sleeps 125, 250, 500, 1000 ms and the call
returns undefined. -/
theorem rpcRetryPolicyWitness :
    (rpcCall (fun _ => RpcAttempt.err true : Nat → RpcAttempt Nat)).attempts ≤ 5 ∧
    rpcCall (fun _ => RpcAttempt.err true : Nat → RpcAttempt Nat) =
      ⟨none, [125, 250, 500, 1000], 5⟩ ∧
    (rpcCall (fun _ => RpcAttempt.err true : Nat → RpcAttempt Nat)).result = none :=
  ⟨(rpcRetryPolicy _).1,
   (rpcRetryPolicy _).2.2.1 (by exact ⟨rfl, rfl, rfl, rfl, rfl⟩),
   (rpcRetryPolicy _).2.2.2.1 (by exact ⟨rfl, rfl, rfl, rfl, rfl⟩)⟩

/-- Claim C4: when a node's underlying computation fails, the stored value is retained:
when the getStaticCallValues chain read inside contractVals yields undefined after
retries (the rpcCall result is none), contractVals returns the previously stored node
value; and when the price fetch inside priceUSDPerCurrency fails, the returned price
object preserves every field of the previously fetched one. -/
theorem computeFailureRetainsPreviousValue {α : Type} (w : String) (hw : w ≠ "")
    (rpcOutcomes : Nat → RpcAttempt α) (hfail : (rpcCall rpcOutcomes).result = none)
    (prev : Option α) (prevPrice : PriceUSD) :
    contractVals true (some w) rpcOutcomes prev = prev ∧
    priceUSDPerCurrency prevPrice none = prevPrice := by
  refine ⟨?_, rfl⟩
  unfold contractVals
  rw [hfail]
  simp [truthyOptStr, hw]

/-- Claim C4, witness: a contract read whose five attempts all fail transiently leaves
the cached contract values in place, and a failed price fetch leaves the price fields. -/
theorem computeFailureRetainsPreviousValueWitness :
    ("0xab" ≠ "") ∧
    ((rpcCall (fun _ => RpcAttempt.err true : Nat → RpcAttempt Int)).result = none) ∧
    (contractVals true (some "0xab") (fun _ => RpcAttempt.err true : Nat → RpcAttempt Int)
        (some 7) = some 7 ∧
      priceUSDPerCurrency ⟨some 2, none, some 1⟩ none = ⟨some 2, none, some 1⟩) :=
  ⟨by decide, by decide,
   computeFailureRetainsPreviousValue "0xab" (by decide) _ (by decide) (some 7) _⟩

/-- Claim C5, counterexample: neither a chainChanged event nor a connect event results
in a write of the chainId node: the chainChanged handler only reloads the page (the
chainId write is commented out in the source), and the connect handler throws a
ReferenceError (temporal dead zone of the const chainIdInt redeclaration) before its
dataflow.set runs; so it is not the case that every wallet-provider event is mapped to
the corresponding Input-node write. -/
theorem walletEventWritesCounterexample :
    (onChainChanged 137).all (fun e => !writesChainId e) = true ∧
    (onConnect (some ["0xabc"]) (some 137)).all (fun e => !writesChainId e) = true := by
  decide

/-- Claim C5, amended: an accountsChanged event always results in a write of the wallet
node; a disconnect event writes both chainId and wallet to undefined (and then clears
all three connection nodes); a chainChanged event reloads the page instead of writing
chainId; and a connect event writes the wallet node (via getWallet) but throws a
ReferenceError before writing chainId. -/
theorem walletEventNodeWrites (accounts providerAccounts : Option (List String))
    (chainId : Int) (infoChainId : Option Int) :
    (onAccountsChanged accounts).any writesWallet = true ∧
    onChainChanged chainId = [WalletEffect.reloadPage] ∧
    onConnect providerAccounts infoChainId =
      [WalletEffect.setWallet (getWalletAddr providerAccounts),
        WalletEffect.throwReferenceError] ∧
    (onConnect providerAccounts infoChainId).all (fun e => !writesChainId e) = true ∧
    onDisconnect = [WalletEffect.setChainIdWallet none none,
      WalletEffect.setProviderChainIdWalletUndefined] := by
  refine ⟨?_, rfl, rfl, ?_, rfl⟩
  · cases accounts <;>
      simp [onAccountsChanged, getWalletEffects, onDisconnectClickEffects, writesWallet]
  · simp [onConnect, getWalletEffects, writesChainId]

/-- Claim C10, counterexample: with both module-level flags currAllowBuying and
currAllowMinting true (their initial values) and both checkbox inputs false,
constrainBuyMintCheckboxes writes false to both allowBuying and allowMinting, so it is
not the case that for every prior state of the flags at least one written value is
true. -/
theorem constrainCheckboxesCounterexample :
    constrainBuyMintCheckboxes (some false) (some false) true true = (false, false) := by
  decide

/-- Claim C10, amended: for every pair of checkbox inputs (undefined treated as true)
and every prior state of the module-level flags in which the flags are not both true,
at least one of the two values written back to the allowBuying and allowMinting nodes
is true (when both flags are true and both inputs are false, both written values are
false, as the counterexample shows). -/
theorem constrainCheckboxesAtLeastOne (allowBuying allowMinting : Option Bool)
    (currAllowBuying currAllowMinting : Bool)
    (hcurr : ¬(currAllowBuying = true ∧ currAllowMinting = true)) :
    (constrainBuyMintCheckboxes allowBuying allowMinting
        currAllowBuying currAllowMinting).1 = true ∨
    (constrainBuyMintCheckboxes allowBuying allowMinting
        currAllowBuying currAllowMinting).2 = true := by
  revert hcurr
  revert allowBuying allowMinting currAllowBuying currAllowMinting
  decide

/-- Claim C10, witness for the amended theorem: with the buying flag previously false,
unchecking both checkboxes flips the buying checkbox back on. -/
theorem constrainCheckboxesAtLeastOneWitness :
    (¬(false = true ∧ true = true)) ∧
    ((constrainBuyMintCheckboxes (some false) (some false) false true).1 = true ∨
      (constrainBuyMintCheckboxes (some false) (some false) false true).2 = true) :=
  ⟨by decide, constrainCheckboxesAtLeastOne (some false) (some false) false true (by decide)⟩

/-- Helper: the composed buy-button disablement splits into the params-node disabled
condition and the pending flag. -/
theorem buyButtonDisabledFull_eq (dublr : Bool) (cv : Option ContractState)
    (amt minTok bought : Option Int) (aB aM : Option Bool) (gest : Option GasEstResult)
    (terms pending : Option Bool) :
    buyButtonDisabledFull dublr cv amt minTok bought aB aM gest terms pending =
      (buyButtonParamsDisabled dublr cv amt minTok bought aB aM gest terms
        || truthyOptBool pending) := by
  unfold buyButtonDisabledFull buyButtonDisabledOut buyButtonParamsResult
  split <;> simp_all

/-- Helper: a possibly-undefined BigNumber passes the defined-and-positive test of the
button logic exactly when it holds a positive value. -/
theorem optIntPos_iff (o : Option Int) :
    (o.isNone = false ∧ o.elim false (fun a => decide (a ≤ 0)) = false) ↔
      ∃ a, o = some a ∧ 0 < a := by
  cases o <;> simp [not_le]

/-- Helper: a possibly-undefined BigNumber passes the defined-and-not-negative test
exactly when it holds a nonnegative value. -/
theorem optIntNonneg_iff (o : Option Int) :
    (o.isNone = false ∧ o.elim false (fun m => decide (m < 0)) = false) ↔
      ∃ m, o = some m ∧ 0 ≤ m := by
  cases o <;> simp [not_lt]

/-- Helper: the contract-state clauses of the button logic hold exactly when the state
is defined with buying or minting enabled. -/
theorem cvEnabled_iff (cv : Option ContractState) :
    (cv.isNone = false ∧ cv.elim false (fun c => !c.buyingEnabled && !c.mintingEnabled) = false) ↔
      ∃ c, cv = some c ∧ (c.buyingEnabled = true ∨ c.mintingEnabled = true) := by
  cases cv with
  | none => simp
  | some c =>
    obtain ⟨cb, cm, cs, mp, sp, sa, bg⟩ := c
    cases cb <;> cases cm <;> simp

/-- Helper: the allow-flag clauses of the button logic hold exactly when both flags are
defined and at least one is true. -/
theorem allowPair_iff (aB aM : Option Bool) :
    (aB.isNone = false ∧ aM.isNone = false ∧
        (!(truthyOptBool aB) && !(truthyOptBool aM)) = false) ↔
      ∃ x, aB = some x ∧ ∃ y, aM = some y ∧ (x = true ∨ y = true) := by
  cases aB with
  | none => simp
  | some x =>
    cases aM with
    | none => simp
    | some y => cases x <;> cases y <;> simp [truthyOptBool]

/-- Helper: the gas-estimate clause of the button logic holds exactly when any present
estimate carries empty warning text. -/
theorem gestWarning_iff (g : Option GasEstResult) :
    (g.elim false (fun x => x.warningText ≠ "") = false) ↔
      ∀ x, g = some x → x.warningText = "" := by
  cases g <;> simp

/-- Helper: the terms checkbox clause holds exactly when the checkbox value is true. -/
theorem termsTrue_iff (t : Option Bool) : (!(truthyOptBool t)) = false ↔ t = some true := by
  cases t with
  | none => simp [truthyOptBool]
  | some b => cases b <;> simp [truthyOptBool]

/-- Helper: the buy-button params node yields undefined exactly unless every requirement
of the source holds. -/
theorem buyButtonParamsDisabled_eq_false_iff (dublr : Bool) (cv : Option ContractState)
    (amt minTok bought : Option Int) (aB aM : Option Bool) (gest : Option GasEstResult)
    (terms : Option Bool) :
    buyButtonParamsDisabled dublr cv amt minTok bought aB aM gest terms = false ↔
      (dublr = true ∧
       (∃ c, cv = some c ∧ (c.buyingEnabled = true ∨ c.mintingEnabled = true)) ∧
       (∃ x, aB = some x ∧ ∃ y, aM = some y ∧ (x = true ∨ y = true)) ∧
       (∃ a, amt = some a ∧ 0 < a) ∧
       (∃ b, bought = some b ∧ 0 < b) ∧
       (∃ m, minTok = some m ∧ 0 ≤ m) ∧
       (∀ g, gest = some g → g.warningText = "") ∧
       terms = some true) := by
  rw [← cvEnabled_iff, ← allowPair_iff, ← optIntPos_iff amt, ← optIntPos_iff bought,
    ← optIntNonneg_iff minTok, ← gestWarning_iff, ← termsTrue_iff]
  simp only [buyButtonParamsDisabled, gasLimitTruthy, Bool.or_eq_false_iff,
    Bool.not_eq_false', Bool.not_true, and_true]
  tauto

/-- Claim C6, counterexample: with the contract values undefined but every requirement
listed by the claim satisfied (dublr present, buy amount 5 positive, simulated amount
bought 3 positive, minimum tokens 1, empty gas-estimation warning, terms checked, no
pending transaction), buyButtonDisabled_out is still set to true, because the source
additionally requires defined contract values (among other conditions); so the claimed
requirement list is not sufficient for enabling the button. -/
theorem buyButtonEnablementCounterexample :
    (0 : Int) < 5 ∧ (0 : Int) < 3 ∧
    buyButtonDisabledFull true none (some 5) (some 1) (some 3) (some true) (some true)
      (some ⟨some 100, some 200, ""⟩) (some true) (some false) = true := by
  refine ⟨by decide, by decide, ?_⟩
  rfl

/-- Claim C6, amended: buyButtonDisabled_out is set false exactly when every strictly
required value is available: the dublr contract is defined, the contract values are
defined with buying or minting enabled on the DEX, both allow-checkbox values are
defined and at least one is checked, the buy amount is defined and positive, the
simulated amount bought is defined and positive, the minimum tokens to receive is
defined and nonnegative, any gas-estimation result carries empty warning text, the buy
terms checkbox is checked, and no buy transaction is pending; whenever any of these
fails, it is set true. -/
theorem buyButtonEnablementCharacterization (dublr : Bool) (cv : Option ContractState)
    (amt minTok bought : Option Int) (aB aM : Option Bool) (gest : Option GasEstResult)
    (terms pending : Option Bool) :
    buyButtonDisabledFull dublr cv amt minTok bought aB aM gest terms pending = false ↔
      (dublr = true ∧
       (∃ c, cv = some c ∧ (c.buyingEnabled = true ∨ c.mintingEnabled = true)) ∧
       (∃ x, aB = some x ∧ ∃ y, aM = some y ∧ (x = true ∨ y = true)) ∧
       (∃ a, amt = some a ∧ 0 < a) ∧
       (∃ b, bought = some b ∧ 0 < b) ∧
       (∃ m, minTok = some m ∧ 0 ≤ m) ∧
       (∀ g, gest = some g → g.warningText = "") ∧
       terms = some true ∧
       pending ≠ some true) := by
  rw [buyButtonDisabledFull_eq, Bool.or_eq_false_iff, buyButtonParamsDisabled_eq_false_iff]
  cases pending with
  | none => simp [truthyOptBool]
  | some b => cases b <;> simp [truthyOptBool]

/-- Claim C1 (stale-result discard, P4; core modelled from the spec): once a new
external write supersedes an in-flight pass (the write increments the pass-generation
counter, so the guard of every pass started at or before the previous generation fails),
the later resolution of any compute function belonging to the superseded pass commits
nothing: the Value Store and the whole core state are left unchanged; the in-flight
computation finishes but its result is discarded. -/
theorem staleResultDiscarded {V : Type} [DecidableEq V] (s : DataflowCore V)
    (passGen : Nat) (hInFlight : passGen ≤ s.currentPassGen)
    (batch : List (String × Option V)) (name : String) (v : Option V) :
    (externalWrite s batch).currentPassGen = s.currentPassGen + 1 ∧
    commitNodeResult (externalWrite s batch) passGen name v = externalWrite s batch := by
  refine ⟨rfl, ?_⟩
  unfold commitNodeResult externalWrite
  have hne : ¬(passGen = s.currentPassGen + 1) := by omega
  simp [hne]

/-- Claim C1, witness: an in-flight pass of the current generation 3 is superseded by an
external write; its later commit of node y leaves the state untouched. -/
theorem staleResultDiscardedWitness :
    (3 ≤ (DataflowCore.mk (fun _ => NodeEntry.mk (none : Option Nat) 0) 3).currentPassGen) ∧
    ((externalWrite (DataflowCore.mk (fun _ => NodeEntry.mk (none : Option Nat) 0) 3)
        [("x", some 1)]).currentPassGen =
      (DataflowCore.mk (fun _ => NodeEntry.mk (none : Option Nat) 0) 3).currentPassGen + 1 ∧
     commitNodeResult
        (externalWrite (DataflowCore.mk (fun _ => NodeEntry.mk (none : Option Nat) 0) 3)
          [("x", some 1)]) 3 "y" (some 2) =
       externalWrite (DataflowCore.mk (fun _ => NodeEntry.mk (none : Option Nat) 0) 3)
         [("x", some 1)]) :=
  ⟨by decide, staleResultDiscarded _ 3 (by decide) [("x", some 1)] "y" (some 2)⟩

/-- Claim C2 (equal-value no-op, P3; Value Store modelled from the spec,
updateListPriceUI from the source): writing a value equal to the node's currently
stored value through the write/set entry point leaves the store untouched, does not
increment the node's generation, produces an empty changed set, and hence an empty
propagation closure, so no dependent recomputation is triggered; and forcing
re-evaluation of an unchanged value is done by the node definitions through the
explicit two-step clear-then-set sequence, as updateListPriceUI does: on a blank list
price field with a known mint price it writes undefined and then the formatted value. -/
theorem equalValueWriteNoOp {V : Type} [DecidableEq V] (store : String → NodeEntry V)
    (name : String) (v : Option V) (heq : v = (store name).value)
    (deps : String → List String) (fuel : Nat)
    (listPriceField : String) (hblank : jsTrim listPriceField = "") (mintPrice : Int) :
    writeBatch store [(name, v)] = (store, []) ∧
    ((writeBatch store [(name, v)]).1 name).generation = (store name).generation ∧
    dependentClosure deps fuel (writeBatch store [(name, v)]).2 = [] ∧
    updateListPriceUI (some listPriceField) (some mintPrice) =
      [none, some (formatPrice (some mintPrice))] := by
  have h1 : writeBatch store [(name, v)] = (store, []) := by
    simp [writeBatch, writeFieldValue, heq]
  refine ⟨h1, by rw [h1], ?_, ?_⟩
  · rw [h1]
    cases fuel <;> simp [dependentClosure]
  · simp [updateListPriceUI, hblank]

/-- Claim C2, witness: re-writing the stored value of node n leaves the store, its
generation and the propagation closure empty, and updateListPriceUI on a blank field
with mint price 1.5 emits the clear-then-set pair. -/
theorem equalValueWriteNoOpWitness :
    ((some "a" : Option String) = ((fun _ => NodeEntry.mk (some "a") 2) "n").value) ∧
    (jsTrim " " = "") ∧
    (writeBatch (fun _ => NodeEntry.mk (some "a") 2) [("n", some "a")] =
        ((fun _ => NodeEntry.mk (some "a") 2), []) ∧
     ((writeBatch (fun _ => NodeEntry.mk (some "a") 2) [("n", some "a")]).1 "n").generation =
        ((fun _ => NodeEntry.mk (some "a") 2) "n").generation ∧
     dependentClosure (fun _ => ["m"]) 2
        (writeBatch (fun _ => NodeEntry.mk (some "a") 2) [("n", some "a")]).2 = [] ∧
     updateListPriceUI (some " ") (some 1500000000) =
        [none, some (formatPrice (some 1500000000))]) :=
  ⟨by decide, by decide,
   equalValueWriteNoOp (fun _ => NodeEntry.mk (some "a") 2) "n" (some "a") (by decide)
     (fun _ => ["m"]) 2 " " (by decide) 1500000000⟩

/-- Helper: each iteration of the buy-simulation loop preserves the conservation
invariant: spent plus remaining funds equal the original buy amount, remaining funds
stay nonnegative (every charge is clamped to them), and the orderbook stays well
formed. -/
theorem buyLoopGo_inv (cv : ContractState) (ab : Bool) (A : Int) :
    ∀ (fuel : Nat) (st : BuySimState),
      BuySimInv A st → BuySimInv A (buyLoopGo cv ab fuel st) := by
  intro fuel
  induction fuel with
  | zero => intro st h; exact h
  | succ fuel ih =>
    intro st h
    obtain ⟨hrem, hsum, hob⟩ := h
    rw [buyLoopGo]
    split
    · rcases hoc : st.orderbookCopy with _ | ⟨sellOrder, rest⟩
      · exact ⟨hrem, hsum, hob⟩
      · have hhead : 0 < sellOrder.priceNWCPerDUBLR_x1e9 ∧ 0 ≤ sellOrder.amountDUBLRWEI :=
          hob sellOrder (by rw [hoc]; exact List.mem_cons_self _ _)
        have htail : ObEntriesOK rest := fun e he =>
          hob e (by rw [hoc]; exact List.mem_cons_of_mem _ he)
        have hcons : ObEntriesOK (sellOrder :: rest) := hoc ▸ hob
        obtain ⟨hp, ha⟩ := hhead
        dsimp only
        split
        · exact ih _ ⟨hrem, hsum, htail⟩
        · split
          · exact ih _ ⟨hrem, hsum, htail⟩
          · split
            · exact ⟨hrem, hsum, hcons⟩
            · split
              · exact ⟨hrem, hsum, hcons⟩
              · apply ih
                have haff : 0 ≤ ethToDublr sellOrder.priceNWCPerDUBLR_x1e9
                    st.buyOrderRemainingNWCWEI := ethToDublr_nonneg hp hrem
                have hamtb : 0 ≤ (if sellOrder.amountDUBLRWEI <
                    ethToDublr sellOrder.priceNWCPerDUBLR_x1e9 st.buyOrderRemainingNWCWEI
                    then sellOrder.amountDUBLRWEI
                    else ethToDublr sellOrder.priceNWCPerDUBLR_x1e9
                      st.buyOrderRemainingNWCWEI) := by
                  split <;> assumption
                have hamtb_le : (if sellOrder.amountDUBLRWEI <
                    ethToDublr sellOrder.priceNWCPerDUBLR_x1e9 st.buyOrderRemainingNWCWEI
                    then sellOrder.amountDUBLRWEI
                    else ethToDublr sellOrder.priceNWCPerDUBLR_x1e9
                      st.buyOrderRemainingNWCWEI) ≤ sellOrder.amountDUBLRWEI := by
                  split
                  · exact le_refl _
                  · omega
                have hcharge := dublrToEthRoundUpClamped_bounds hp.le hamtb hrem
                refine ⟨by dsimp only; omega, by dsimp only; omega, ?_⟩
                dsimp only
                intro e he
                split at he <;> split at he
                · exact htail e he
                · rcases List.mem_cons.mp he with heq | hmem
                  · subst heq
                    refine ⟨hp, ?_⟩
                    dsimp only
                    omega
                  · exact htail e hmem
                · exact htail e he
                · rcases List.mem_cons.mp he with heq | hmem
                  · subst heq
                    refine ⟨hp, ?_⟩
                    dsimp only
                    omega
                  · exact htail e hmem
    · exact ⟨hrem, hsum, hob⟩

/-- Helper: the minting step after the loop preserves the conservation invariant. -/
theorem buyMintStep_inv (cv : ContractState) (am : Bool) (A : Int) (st : BuySimState)
    (h : BuySimInv A st) : BuySimInv A (buyMintStep cv am st) := by
  obtain ⟨hrem, hsum, hob⟩ := h
  unfold buyMintStep
  split
  · rename_i hcond
    simp only [Bool.and_eq_true, decide_eq_true_eq] at hcond
    have hmp : 0 < cv.mintPriceNWCPerDUBLR_x1e9 := hcond.1.2
    have hmint : 0 ≤ ethToDublr cv.mintPriceNWCPerDUBLR_x1e9 st.buyOrderRemainingNWCWEI :=
      ethToDublr_nonneg hmp hrem
    have hcharge := dublrToEthRoundUpClamped_bounds hmp.le hmint hrem
    dsimp only
    split
    · exact ⟨by dsimp only; omega, by dsimp only; omega, hob⟩
    · exact ⟨hrem, hsum, hob⟩
  · exact ⟨hrem, hsum, hob⟩

/-- Claim C9: conservation of funds in the buy() simulation. For every contract state,
well-formed orderbook (positive prices, nonnegative amounts) and positive buy amount,
after any number of steps of the simulated buy loop and after the minting step,
totSpentNWCWEI plus buyOrderRemainingNWCWEI equals the original buyAmountNWCWEI and
buyOrderRemainingNWCWEI is never negative (each charge is clamped to the remaining
funds); consequently the displayed "Total to spend" equals the accumulated spend and
never exceeds the amount the user entered. -/
theorem buySimulationConservation (cv : ContractState) (allowBuying allowMinting : Bool)
    (buyAmountNWCWEI : Int) (orderbook : List SellOrderEntry)
    (hpos : 0 < buyAmountNWCWEI)
    (hob : orderbook.all (fun e => decide (0 < e.priceNWCPerDUBLR_x1e9) &&
      decide (0 ≤ e.amountDUBLRWEI)) = true) (fuel : Nat) :
    (0 ≤ (buyLoopGo cv allowBuying fuel
        (initBuySimState buyAmountNWCWEI orderbook)).buyOrderRemainingNWCWEI ∧
      (buyLoopGo cv allowBuying fuel
          (initBuySimState buyAmountNWCWEI orderbook)).totSpentNWCWEI +
        (buyLoopGo cv allowBuying fuel
          (initBuySimState buyAmountNWCWEI orderbook)).buyOrderRemainingNWCWEI =
        buyAmountNWCWEI) ∧
    (0 ≤ (buyMintStep cv allowMinting (buyLoopGo cv allowBuying fuel
        (initBuySimState buyAmountNWCWEI orderbook))).buyOrderRemainingNWCWEI ∧
      (buyMintStep cv allowMinting (buyLoopGo cv allowBuying fuel
          (initBuySimState buyAmountNWCWEI orderbook))).totSpentNWCWEI +
        (buyMintStep cv allowMinting (buyLoopGo cv allowBuying fuel
          (initBuySimState buyAmountNWCWEI orderbook))).buyOrderRemainingNWCWEI =
        buyAmountNWCWEI) ∧
    totalToSpendNWCWEI buyAmountNWCWEI (buyMintStep cv allowMinting (buyLoopGo cv
        allowBuying fuel (initBuySimState buyAmountNWCWEI orderbook))) =
      (buyMintStep cv allowMinting (buyLoopGo cv allowBuying fuel
        (initBuySimState buyAmountNWCWEI orderbook))).totSpentNWCWEI ∧
    totalToSpendNWCWEI buyAmountNWCWEI (buyMintStep cv allowMinting (buyLoopGo cv
        allowBuying fuel (initBuySimState buyAmountNWCWEI orderbook))) ≤
      buyAmountNWCWEI := by
  have hobP : ObEntriesOK orderbook := by
    intro e he
    have h := List.all_eq_true.mp hob e he
    simp only [Bool.and_eq_true, decide_eq_true_eq] at h
    exact h
  have h0 : BuySimInv buyAmountNWCWEI (initBuySimState buyAmountNWCWEI orderbook) :=
    ⟨by simp [initBuySimState]; omega, by simp [initBuySimState], hobP⟩
  have h1 := buyLoopGo_inv cv allowBuying buyAmountNWCWEI fuel _ h0
  have h2 := buyMintStep_inv cv allowMinting buyAmountNWCWEI _ h1
  obtain ⟨hr1, hs1, -⟩ := h1
  obtain ⟨hr2, hs2, -⟩ := h2
  refine ⟨⟨hr1, hs1⟩, ⟨hr2, hs2⟩, ?_, ?_⟩
  · unfold totalToSpendNWCWEI
    omega
  · unfold totalToSpendNWCWEI
    omega

/-- Claim C9, witness: the conservation facts at a concrete contract state (buying and
minting enabled, mint price 3), a one-entry orderbook (price 2, amount 5), buy amount
10 and four loop iterations. -/
theorem buySimulationConservationWitness :
    ((0 : Int) < 10) ∧
    ([SellOrderEntry.mk 2 5 false].all (fun e => decide (0 < e.priceNWCPerDUBLR_x1e9) &&
      decide (0 ≤ e.amountDUBLRWEI)) = true) ∧
    ((0 ≤ (buyLoopGo (ContractState.mk true true true 3 0 0 none) true 4
        (initBuySimState 10 [SellOrderEntry.mk 2 5 false])).buyOrderRemainingNWCWEI ∧
      (buyLoopGo (ContractState.mk true true true 3 0 0 none) true 4
          (initBuySimState 10 [SellOrderEntry.mk 2 5 false])).totSpentNWCWEI +
        (buyLoopGo (ContractState.mk true true true 3 0 0 none) true 4
          (initBuySimState 10 [SellOrderEntry.mk 2 5 false])).buyOrderRemainingNWCWEI =
        10) ∧
     (0 ≤ (buyMintStep (ContractState.mk true true true 3 0 0 none) true
        (buyLoopGo (ContractState.mk true true true 3 0 0 none) true 4
          (initBuySimState 10 [SellOrderEntry.mk 2 5 false]))).buyOrderRemainingNWCWEI ∧
      (buyMintStep (ContractState.mk true true true 3 0 0 none) true
          (buyLoopGo (ContractState.mk true true true 3 0 0 none) true 4
            (initBuySimState 10 [SellOrderEntry.mk 2 5 false]))).totSpentNWCWEI +
        (buyMintStep (ContractState.mk true true true 3 0 0 none) true
          (buyLoopGo (ContractState.mk true true true 3 0 0 none) true 4
            (initBuySimState 10 [SellOrderEntry.mk 2 5 false]))).buyOrderRemainingNWCWEI =
        10) ∧
     totalToSpendNWCWEI 10 (buyMintStep (ContractState.mk true true true 3 0 0 none) true
        (buyLoopGo (ContractState.mk true true true 3 0 0 none) true 4
          (initBuySimState 10 [SellOrderEntry.mk 2 5 false]))) =
      (buyMintStep (ContractState.mk true true true 3 0 0 none) true
        (buyLoopGo (ContractState.mk true true true 3 0 0 none) true 4
          (initBuySimState 10 [SellOrderEntry.mk 2 5 false]))).totSpentNWCWEI ∧
     totalToSpendNWCWEI 10 (buyMintStep (ContractState.mk true true true 3 0 0 none) true
        (buyLoopGo (ContractState.mk true true true 3 0 0 none) true 4
          (initBuySimState 10 [SellOrderEntry.mk 2 5 false]))) ≤ 10) :=
  ⟨by decide, by decide,
   buySimulationConservation (ContractState.mk true true true 3 0 0 none) true true 10
     [SellOrderEntry.mk 2 5 false] (by decide) (by decide) 4⟩

end DublrDapp
